import Mathlib

set_option maxRecDepth 100000

set_option maxHeartbeats 4000000

/-!
Shallow embedding of the snake-chess rules engine (src/chess.py, src/arbiter.py,
src/ai.py) and proofs about the claims of its specification.

Conventions of the embedding:
* Python int coordinates are `Int`; `in range(0, 8)` becomes `in_range`.
* A `BoardState` is the 8x8 dictionary of `chess.py`, stored column-major
  (outer index = x/file, inner index = y/rank) so that `positions_and_pieces`
  enumerates squares in the same order as the Python dict built by
  `BoardState.empty()` (x outer, y inner, insertion order preserved).
* Python `frozenset` equality is modelled by mutual list containment.
* Short-circuiting `and` / `or` become `&&` / `||` (also lazy in Lean).
-/

inductive Team where
  | W
  | B
  deriving DecidableEq

def get_opponent_of : Team → Team
  | .W => .B
  | .B => .W

inductive PieceKind where
  | P
  | R
  | N
  | B
  | Q
  | K
  deriving DecidableEq

/-- A piece, compared (like `Piece.__eq__`) by team and symbol only. -/
structure Piece where
  kind : PieceKind
  team : Team
  deriving DecidableEq

abbrev Pos := Int × Int

/-- Python `v in range(0, 8)`. -/
def in_range (v : Int) : Bool :=
  decide (0 ≤ v ∧ v < 8)

/--
The three move classes of `chess.py` (`Move`, `PawnPromotionMove`,
`CastlingMove`).  Python equality is `type(self) == type(other)` plus field
equality, which is exactly constructor-wise structural equality here.
-/
inductive Move where
  | reg (from_pos to_pos : Pos) (moved_piece : Piece)
        (captured_pos : Option Pos) (captured_piece : Option Piece)
  | promo (from_pos to_pos : Pos) (moved_piece : Piece)
          (promoted_piece : Piece)
          (captured_pos : Option Pos) (captured_piece : Option Piece)
  | castle (from_pos to_pos : Pos) (moved_piece : Piece)
           (rook_pos : Pos) (rook_piece : Piece)
  deriving DecidableEq

def Move.from_pos : Move → Pos
  | .reg f _ _ _ _ => f
  | .promo f _ _ _ _ _ => f
  | .castle f _ _ _ _ => f

def Move.to_pos : Move → Pos
  | .reg _ t _ _ _ => t
  | .promo _ t _ _ _ _ => t
  | .castle _ t _ _ _ => t

def Move.moved_piece : Move → Piece
  | .reg _ _ p _ _ => p
  | .promo _ _ p _ _ _ => p
  | .castle _ _ p _ _ => p

def Move.captured_pos : Move → Option Pos
  | .reg _ _ _ c _ => c
  | .promo _ _ _ _ c _ => c
  | .castle _ _ _ _ _ => none

def Move.captured_piece : Move → Option Piece
  | .reg _ _ _ _ c => c
  | .promo _ _ _ _ _ c => c
  | .castle _ _ _ _ _ => none

/-- `isinstance(move, PawnPromotionMove)`. -/
def Move.is_promotion : Move → Bool
  | .promo _ _ _ _ _ _ => true
  | _ => false

def Move.promoted_piece_value : Move → Option Piece
  | .promo _ _ _ pr _ _ => some pr
  | _ => none

/-- Acts submitted to the arbiter (`MoveAct`, `ClaimDrawAct`, `SurrenderAct`).
All of them are created as instances in the sources (gui.py, main.py, ai.py). -/
inductive Act where
  | move (m : Move) (offer_draw : Bool)
  | claimDraw
  | surrender
  deriving DecidableEq

abbrev BoardState := List (List (Option Piece))

def empty_board : BoardState :=
  List.replicate 8 (List.replicate 8 (none : Option Piece))

/-- `BoardState.piece_at`. Out-of-range positions assert in Python; they are
never queried on reachable paths, so the total function returns `none` there. -/
def board_piece_at (b : BoardState) (p : Pos) : Option Piece :=
  if in_range p.1 && in_range p.2 then
    (b.getD p.1.toNat []).getD p.2.toNat none
  else none

/-- `BoardState.copy_with_piece_at`. -/
def board_copy_with_piece_at (b : BoardState) (p : Pos) (pc : Option Piece) : BoardState :=
  b.set p.1.toNat ((b.getD p.1.toNat []).set p.2.toNat pc)

/-- `BoardState.positions_and_pieces`: the non-empty squares, enumerated in the
insertion order of the dict built by `BoardState.empty()` (x outer, y inner),
i.e. a direct indexed traversal of the 64 cells. -/
def positions_and_pieces (b : BoardState) : List (Pos × Piece) :=
  b.enum.bind fun xcol =>
    xcol.2.enum.filterMap fun ycell =>
      ycell.2.map fun pc =>
        ((((xcol.1 : Int), (ycell.1 : Int)) : Pos), pc)

/-- `CastlingMove.rook_to_pos`: `king_x + int(copysign(1, king_x - rook_prev_x))`
(`copysign(1, 0)` is `+1`). -/
def castle_rook_to_pos (to_pos rook_pos : Pos) : Pos :=
  (to_pos.1 + (if to_pos.1 - rook_pos.1 < 0 then (-1 : Int) else 1), rook_pos.2)

/-- `Move.compute_over_board_state` for the three move classes.  The Python
guard `if self.captured_pos and self.captured_piece` is truthiness of a
non-empty tuple / a piece, i.e. both fields being non-`None`. -/
def move_reg_over_board_state (f t : Pos) (mp : Piece)
    (cp : Option Pos) (cpc : Option Piece) (b : BoardState) : BoardState :=
  let b1 := match cp, cpc with
    | some cpos, some _ => board_copy_with_piece_at b cpos none
    | _, _ => b
  board_copy_with_piece_at (board_copy_with_piece_at b1 f none) t (some mp)

def Move.compute_over_board_state : Move → BoardState → BoardState
  | .reg f t mp cp cpc, b => move_reg_over_board_state f t mp cp cpc b
  | .promo f t mp pr cp cpc, b =>
    board_copy_with_piece_at (move_reg_over_board_state f t mp cp cpc b) t (some pr)
  | .castle f t mp rp rpc, b =>
    board_copy_with_piece_at
      (board_copy_with_piece_at
        (board_copy_with_piece_at (board_copy_with_piece_at b f none) t (some mp))
        rp none)
      (castle_rook_to_pos t rp) (some rpc)

/-- `GameState.__init__`: either the root (no previous state, no act) or a
state derived by an act; both `previous_state` and `last_act` are `None`
together, which the constructor asserts. -/
inductive GameState where
  | root (board_state : BoardState)
  | step (board_state : BoardState) (previous : GameState) (act : Act)

def GameState.board_state : GameState → BoardState
  | .root b => b
  | .step b _ _ => b

def GameState.previous_state : GameState → Option GameState
  | .root _ => none
  | .step _ p _ => some p

def GameState.last_act : GameState → Option Act
  | .root _ => none
  | .step _ _ a => some a

def GameState.history_size : GameState → Nat
  | .root _ => 0
  | .step _ p _ => 1 + p.history_size

/-- `'WB'[self.history_size % 2]`. -/
def GameState.playing_team (s : GameState) : Team :=
  if s.history_size % 2 = 0 then .W else .B

/-- `None if last_act is None or not isinstance(last_act, MoveAct) else last_act.move`. -/
def GameState.last_move : GameState → Option Move
  | .step _ _ (.move m _) => some m
  | _ => none

def GameState.piece_at (s : GameState) (p : Pos) : Option Piece :=
  board_piece_at s.board_state p

/-- `GameState.historical_moves`: `[last_move] + previous.historical_moves`
when `last_move` is not `None`, else `[]` — so the walk stops at the first
state whose act is not a `MoveAct`. -/
def GameState.historical_moves : GameState → List Move
  | .step _ p (.move m _) => m :: p.historical_moves
  | _ => []

def pawn_direction : Team → Int
  | .W => 1
  | .B => -1

/-- `Pawn.get_attacked_positions`.  The source tests `piece_x - 1 > 0`
(not `>= 0`), so a pawn on file 1 does not record file 0 as attacked. -/
def pawn_attacked_positions (team : Team) (p : Pos) : List Pos :=
  let d := pawn_direction team
  if in_range (p.2 + d) then
    (if p.1 - 1 > 0 then [((p.1 - 1, p.2 + d) : Pos)] else []) ++
    (if p.1 + 1 < 8 then [((p.1 + 1, p.2 + d) : Pos)] else [])
  else []

def rook_sweep_directions : List (Int × Int) := [(1, 0), (-1, 0), (0, 1), (0, -1)]

def bishop_sweep_directions : List (Int × Int) := [(1, 1), (1, -1), (-1, 1), (-1, -1)]

def queen_sweep_directions : List (Int × Int) :=
  rook_sweep_directions ++ bishop_sweep_directions

/-- Inner loop of `SweepingPiece.get_attacked_positions` for one direction:
`for n in range(1, 8)`, skipping out-of-range squares and breaking after the
first occupied in-range square. -/
def sweep_attacked_from (b : BoardState) (p : Pos) (d : Int × Int) :
    List Int → List Pos
  | [] => []
  | n :: ns =>
    let q : Pos := (p.1 + d.1 * n, p.2 + d.2 * n)
    if in_range q.1 && in_range q.2 then
      q :: (if (board_piece_at b q).isSome then [] else sweep_attacked_from b p d ns)
    else sweep_attacked_from b p d ns

def sweep_attacked (b : BoardState) (p : Pos) (dirs : List (Int × Int)) : List Pos :=
  dirs.bind fun d => sweep_attacked_from b p d [1, 2, 3, 4, 5, 6, 7]

/-- `Knight.get_attacked_positions`. -/
def knight_attacked_positions (p : Pos) : List Pos :=
  ([(([-1, 1] : List Int), ([-2, 2] : List Int)),
    (([-2, 2] : List Int), ([-1, 1] : List Int))]).bind fun xy =>
    xy.1.bind fun x =>
      if in_range (x + p.1) then
        xy.2.filterMap fun y =>
          if in_range (y + p.2) then some ((p.1 + x, p.2 + y) : Pos) else none
      else []

/-- `King.get_attacked_positions`. -/
def king_attacked_positions (p : Pos) : List Pos :=
  ([-1, 0, 1] : List Int).bind fun x =>
    if in_range (x + p.1) then
      ([-1, 0, 1] : List Int).filterMap fun y =>
        if x = 0 ∧ y = 0 then none
        else if in_range (y + p.2) then some ((p.1 + x, p.2 + y) : Pos) else none
    else []

def get_attacked_positions (pc : Piece) (s : GameState) (p : Pos) : List Pos :=
  match pc.kind with
  | .P => pawn_attacked_positions pc.team p
  | .R => sweep_attacked s.board_state p rook_sweep_directions
  | .B => sweep_attacked s.board_state p bishop_sweep_directions
  | .Q => sweep_attacked s.board_state p queen_sweep_directions
  | .N => knight_attacked_positions p
  | .K => king_attacked_positions p

/-- `GameState.get_squares_attacked_by_team`; `allowed_pieces` is the optional
symbol filter string. -/
def get_squares_attacked_by_team (s : GameState) (team : Team)
    (allowed_pieces : Option (List PieceKind) := none) : List Pos :=
  (positions_and_pieces s.board_state).bind fun pp =>
    if decide (pp.2.team = team) &&
        (match allowed_pieces with
         | none => true
         | some l => l.contains pp.2.kind) then
      get_attacked_positions pp.2 s pp.1
    else []

/-- `GameState.is_king_checked`: `True` when the king is missing. -/
def is_king_checked (s : GameState) (king_team : Team) : Bool :=
  match (positions_and_pieces s.board_state).find?
      (fun pp => decide (pp.2.kind = .K ∧ pp.2.team = king_team)) with
  | some kpp => (get_squares_attacked_by_team s (get_opponent_of king_team)).contains kpp.1
  | none => true

/-- The promotion list `[Rook, Knight, Bishop, Queen]` of the same team. -/
def promotion_pieces (team : Team) : List Piece :=
  [⟨.R, team⟩, ⟨.N, team⟩, ⟨.B, team⟩, ⟨.Q, team⟩]

/-- `Pawn.get_possible_moves`.  `piece` is re-read from the board in the
source; every caller passes the piece found at `piece_position`, so the
dispatched piece `pc` is used directly. -/
def pawn_possible_moves (pc : Piece) (s : GameState) (p : Pos) : List Move :=
  let d := pawn_direction pc.team
  let forward_1 : Pos := (p.1, p.2 + d)
  let forward_1_at_end : Bool :=
    decide (p.2 + d = (match pc.team with | .W => (7 : Int) | .B => 0))
  let forward_2 : Pos := (p.1, p.2 + d * 2)
  if in_range (p.2 + d) then
    (([-1, 1] : List Int).bind fun rl =>
      if in_range (p.1 + rl) then
        let attack_pos : Pos := (p.1 + rl, p.2 + d)
        let capture_moves : List Move :=
          match s.piece_at attack_pos with
          | some apc =>
            if apc.team ≠ pc.team then
              if forward_1_at_end then
                (promotion_pieces pc.team).map fun pr =>
                  .promo p attack_pos pc pr (some attack_pos) (some apc)
              else
                [.reg p attack_pos pc (some attack_pos) (some apc)]
            else []
          | none => []
        let ep_pos : Pos := (p.1 + rl, p.2)
        let ep_moves : List Move :=
          match board_piece_at s.board_state ep_pos, s.last_move with
          | some epc, some lm =>
            if epc.kind = .P ∧ lm.to_pos = ep_pos ∧
                (lm.to_pos.2 - lm.from_pos.2).natAbs = 2 then
              [.reg p attack_pos pc (some ep_pos) (some epc)]
            else []
          | _, _ => []
        capture_moves ++ ep_moves
      else []) ++
    (match s.piece_at forward_1 with
     | none =>
       if forward_1_at_end then
         (promotion_pieces pc.team).map fun pr => .promo p forward_1 pc pr none none
       else
         [(.reg p forward_1 pc none none : Move)] ++
         (if decide (p.2 = (match pc.team with | .W => (1 : Int) | .B => 6)) &&
             (s.piece_at forward_2).isNone then
            [(.reg p forward_2 pc none none : Move)]
          else [])
     | some _ => [])
  else []

/-- `MoveToAttackedPositionsPiece.get_possible_moves`. -/
def move_to_attacked_possible_moves (pc : Piece) (s : GameState) (p : Pos) : List Move :=
  (get_attacked_positions pc s p).filterMap fun ap =>
    match s.piece_at ap with
    | none => some (.reg p ap pc none none)
    | some apc =>
      if apc.team ≠ pc.team then some (.reg p ap pc (some ap) (some apc)) else none

/-- Python `range(start, stop, step)` over `Int`, with enough fuel for a board
file sweep. -/
def int_range_list : Nat → Int → Int → Int → List Int
  | 0, _, _, _ => []
  | fuel + 1, cur, stop, st =>
    if (0 < st ∧ cur < stop) ∨ (st < 0 ∧ stop < cur) then
      cur :: int_range_list fuel (cur + st) stop st
    else []

/-- `King._get_castling_moves`. -/
def king_castling_moves (pc : Piece) (s : GameState) (p : Pos) : List Move :=
  let has_king_moved := s.historical_moves.any fun m => decide (m.moved_piece = pc)
  let squares_attacked_by_opponent :=
    get_squares_attacked_by_team s (get_opponent_of pc.team)
  if ¬ has_king_moved = true ∧ ¬ squares_attacked_by_opponent.contains p = true then
    ((match pc.team with
      | .W => [(((0 : Int), (0 : Int)) : Pos), ((7 : Int), (0 : Int))]
      | .B => [(((0 : Int), (7 : Int)) : Pos), ((7 : Int), (7 : Int))])).bind
      fun rook_pos =>
        match s.piece_at rook_pos with
        | none => []
        | some rook_piece =>
          if rook_piece.kind ≠ .R ∨ rook_piece.team ≠ pc.team then []
          else
            let has_rook_moved := s.historical_moves.any fun m =>
              decide (m.to_pos = rook_pos)
            if has_rook_moved then []
            else
              let dir_to_rook : Int := if rook_pos.1 - p.1 < 0 then -1 else 1
              let blocked := (int_range_list 8 (p.1 + dir_to_rook) rook_pos.1
                  dir_to_rook).any fun ix =>
                (s.piece_at (ix, p.2)).isSome ||
                squares_attacked_by_opponent.contains ((ix, p.2) : Pos)
              if blocked then []
              else [.castle p (p.1 + dir_to_rook * 2, p.2) pc rook_pos rook_piece]
  else []

def get_possible_moves (pc : Piece) (s : GameState) (p : Pos) : List Move :=
  match pc.kind with
  | .P => pawn_possible_moves pc s p
  | .K => move_to_attacked_possible_moves pc s p ++ king_castling_moves pc s p
  | _ => move_to_attacked_possible_moves pc s p

/-- `GameState.copy_with_act_applied`: only an act of exact type `MoveAct`
rewrites the board. -/
def copy_with_act_applied (s : GameState) (a : Act) : GameState :=
  let b := match a with
    | .move m _ => m.compute_over_board_state s.board_state
    | _ => s.board_state
  .step b s a

/-- `GameState.compute_legal_moves_for_playing_team`. -/
def compute_legal_moves_for_playing_team (s : GameState) : List Move :=
  (positions_and_pieces s.board_state).bind fun pp =>
    if pp.2.team = s.playing_team then
      (get_possible_moves pp.2 s pp.1).filter fun m =>
        ! is_king_checked (copy_with_act_applied s (.move m false)) s.playing_team
    else []

def back_rank_kinds : List PieceKind := [.R, .N, .B, .Q, .K, .B, .N, .R]

/-- The board of `BoardState.with_initial_material()`: files x = 0..7 hold the
back-rank piece of `RNBQKBNR` at ranks 0 (White) and 7 (Black) and pawns at
ranks 1 and 6. -/
def initial_board : BoardState :=
  (List.range 8).map fun x =>
    [some ⟨back_rank_kinds.getD x .K, .W⟩, some ⟨.P, .W⟩,
     none, none, none, none,
     some ⟨.P, .B⟩, some ⟨back_rank_kinds.getD x .K, .B⟩]

def initial_game_state : GameState := .root initial_board

/-- The `Outcome` constants; `DRAW = 0` is falsy in Python, which matters for
`GameResult.outcome`. -/
def Outcome.DRAW : Nat := 0

def Outcome.MAY_CLAIM_DRAW : Nat := 1

def Outcome.WHITE_WINS : Nat := 2

def Outcome.BLACK_WINS : Nat := 3

/-- The value stored in a rule's `outcome` attribute.  `VictoryByOpponentSurrender`
stores the whole dict `dict(W=..., B=...)` (the source forgets to index it), a
non-integer truthy value. -/
inductive RuleOutcome where
  | int (n : Nat)
  | winnerDict
  deriving DecidableEq

/-- The game-end rules of `GameState.game_end_rules`. -/
inductive Rule where
  | victoryByOpponentSurrender (team : Team)
  | victoryByCheckmate (winning_team : Team)
  | drawByStalemate
  | drawByFivefoldRepetition
  | drawBySeventyFiveMoveRule
  | drawByInsufficientMaterial
  | drawClaimableByThreefoldRepetition
  | drawClaimableByFiftyMoveRule
  | drawClaimableByOffer
  deriving DecidableEq

def rule_outcome : Rule → RuleOutcome
  | .victoryByOpponentSurrender _ => .winnerDict
  | .victoryByCheckmate .W => .int Outcome.WHITE_WINS
  | .victoryByCheckmate .B => .int Outcome.BLACK_WINS
  | .drawByStalemate => .int Outcome.DRAW
  | .drawByFivefoldRepetition => .int Outcome.DRAW
  | .drawBySeventyFiveMoveRule => .int Outcome.DRAW
  | .drawByInsufficientMaterial => .int Outcome.DRAW
  | .drawClaimableByThreefoldRepetition => .int Outcome.MAY_CLAIM_DRAW
  | .drawClaimableByFiftyMoveRule => .int Outcome.MAY_CLAIM_DRAW
  | .drawClaimableByOffer => .int Outcome.MAY_CLAIM_DRAW

/-- `rule.outcome != Outcome.MAY_CLAIM_DRAW` (the surrender rules' dict is
`!= 1` as well). -/
def rule_outcome_ne_may_claim (r : Rule) : Bool :=
  decide (rule_outcome r ≠ .int Outcome.MAY_CLAIM_DRAW)

def rule_outcome_is_may_claim (r : Rule) : Bool :=
  decide (rule_outcome r = .int Outcome.MAY_CLAIM_DRAW)

/-- `NoPawnMoveOrCaptureRule._is_pawn_move_or_piece_capture`. -/
def is_pawn_move_or_piece_capture (m : Move) : Bool :=
  decide (m.moved_piece.kind = .P) || m.captured_piece.isSome

/-- The counting loop of `NoPawnMoveOrCaptureRule.is_applicable`: walk the
whole previous-state chain and count every state whose `last_move` is a move
that is neither a pawn move nor a capture.  The count never resets. -/
def n_moves_without_capture_or_pawn_move : GameState → Nat
  | .root _ => 0
  | .step _ p a =>
    (match a with
     | .move m _ => if is_pawn_move_or_piece_capture m then 0 else 1
     | _ => 0) + n_moves_without_capture_or_pawn_move p

/-- The cursor walk shared by the repetition rules: the state itself followed
by all its ancestors. -/
def state_chain : GameState → List GameState
  | .root b => [.root b]
  | .step b p a => .step b p a :: state_chain p

/-- Python `frozenset` equality: mutual containment. -/
def list_set_eq {α : Type} [DecidableEq α] (as bs : List α) : Bool :=
  (as.all fun a => bs.contains a) && (bs.all fun b => as.contains b)

/-- The state tuple keyed by `RepetitionRule.is_applicable`:
`(frozenset(positions_and_pieces), playing_team, frozenset(legal moves))`. -/
def repetition_state_key (s : GameState) :
    List (Pos × Piece) × Team × List Move :=
  (positions_and_pieces s.board_state, s.playing_team,
   compute_legal_moves_for_playing_team s)

/-- Equality of state tuples (tuple comparison is componentwise, the two
frozensets by mutual containment). -/
def repetition_key_eq (k1 k2 : List (Pos × Piece) × Team × List Move) : Bool :=
  list_set_eq k1.1 k2.1 && decide (k1.2.1 = k2.2.1) && list_set_eq k1.2.2 k2.2.2

/-- The occurrence dictionary `number_of_occurrences_by_state`, as an
association list grouped by state-tuple equality. -/
def repetition_bump (key : List (Pos × Piece) × Team × List Move) :
    List ((List (Pos × Piece) × Team × List Move) × Nat) →
    List ((List (Pos × Piece) × Team × List Move) × Nat)
  | [] => [(key, 1)]
  | (k, n) :: rest =>
    if repetition_key_eq k key then (k, n + 1) :: rest
    else (k, n) :: repetition_bump key rest

/-- `RepetitionRule.is_applicable` with `num_repetitions = k`. -/
def repetition_rule_applicable (k : Nat) (s : GameState) : Bool :=
  let keys := (state_chain s).map repetition_state_key
  let occurrences := keys.foldl (fun acc key => repetition_bump key acc) []
  occurrences.any fun kn => decide (kn.2 ≥ k)

/-- `VictoryByCheckmate.is_applicable`. -/
def victory_by_checkmate_applicable (winning_team : Team) (s : GameState) : Bool :=
  is_king_checked s (get_opponent_of winning_team) &&
  ! decide ((compute_legal_moves_for_playing_team s).length > 0) &&
  decide (s.playing_team = get_opponent_of winning_team)

/-- `DrawByStalemate.is_applicable`. -/
def draw_by_stalemate_applicable (s : GameState) : Bool :=
  ! is_king_checked s s.playing_team &&
  ! decide ((compute_legal_moves_for_playing_team s).length > 0)

/-- `DrawByInsufficientMaterial._bishops_on_same_color`: the set of square
colors of all bishops has exactly one element. -/
def bishops_on_same_color (s : GameState) : Bool :=
  let colors := (positions_and_pieces s.board_state).filterMap fun pp =>
    if pp.2.kind = .B then some ((pp.1.1 + pp.1.2) % 2) else none
  match colors.dedup with
  | [_] => true
  | _ => false

/-- `DrawByInsufficientMaterial.is_applicable`.  `{pieces_w, pieces_b} ==
{frozenset(...), frozenset(...)}` compares unordered pairs of frozensets. -/
def draw_by_insufficient_material_applicable (s : GameState) : Bool :=
  let pieces := (positions_and_pieces s.board_state).map fun pp => pp.2
  let pieces_w := (pieces.filter fun pc => pc.team = .W).map fun pc => pc.kind
  let pieces_b := (pieces.filter fun pc => pc.team = .B).map fun pc => pc.kind
  decide (pieces.length = 2) ||
  (decide (pieces.length = 3) &&
    ((list_set_eq pieces_w [.K, .N] && list_set_eq pieces_b [.K]) ||
     (list_set_eq pieces_w [.K] && list_set_eq pieces_b [.K, .N]))) ||
  (decide (pieces.length = 3) &&
    ((list_set_eq pieces_w [.K, .B] && list_set_eq pieces_b [.K]) ||
     (list_set_eq pieces_w [.K] && list_set_eq pieces_b [.K, .B]))) ||
  (decide (pieces.length = 4) && list_set_eq pieces_w [.K, .B] &&
    list_set_eq pieces_w pieces_b && bishops_on_same_color s)

/-- `rule.is_applicable(game_state)` for every rule.

`DrawClaimableByOffer.is_applicable` tests `game_state.last_act is MoveAct`
and `VictoryByOpponentSurrender.is_applicable` tests
`game_state.last_act is SurrenderAct`: both compare the act instance with the
class object by identity, which is always false, so these rules never apply. -/
def rule_applicable : Rule → GameState → Bool
  | .victoryByOpponentSurrender _, _ => false
  | .victoryByCheckmate t, s => victory_by_checkmate_applicable t s
  | .drawByStalemate, s => draw_by_stalemate_applicable s
  | .drawByFivefoldRepetition, s => repetition_rule_applicable 5 s
  | .drawBySeventyFiveMoveRule, s =>
    decide (n_moves_without_capture_or_pawn_move s ≥ 75 * 2)
  | .drawByInsufficientMaterial, s => draw_by_insufficient_material_applicable s
  | .drawClaimableByThreefoldRepetition, s => repetition_rule_applicable 3 s
  | .drawClaimableByFiftyMoveRule, s =>
    decide (n_moves_without_capture_or_pawn_move s ≥ 50 * 2)
  | .drawClaimableByOffer, _ => false

/-- `GameState.game_end_rules`, in source order. -/
def game_end_rules : List Rule :=
  [.victoryByOpponentSurrender .W,
   .victoryByOpponentSurrender .B,
   .victoryByCheckmate .W,
   .victoryByCheckmate .B,
   .drawByStalemate,
   .drawByFivefoldRepetition,
   .drawBySeventyFiveMoveRule,
   .drawByInsufficientMaterial,
   .drawClaimableByThreefoldRepetition,
   .drawClaimableByFiftyMoveRule,
   .drawClaimableByOffer]

structure GameResult where
  ended_by_rule : Option Rule
  may_claim_draw_by_rule : Option Rule
  is_finished : Bool
  may_claim_draw : Bool

/-- `GameResult.__init__` / `GameState.compute_result`.

The branch `if game_state.last_act is ClaimDrawAct` compares the act instance
against the class object, which is always false, so the generic rule scan
always runs.  Likewise the final auto-accept branch tests
`game_state.last_act is MoveAct`, always false, so it never fires. -/
def compute_result (s : GameState) : GameResult :=
  let ended := game_end_rules.find? fun r =>
    rule_applicable r s && rule_outcome_ne_may_claim r
  let may_claim_by := game_end_rules.find? fun r =>
    rule_applicable r s && rule_outcome_is_may_claim r
  let is_finished := ended.isSome
  { ended_by_rule := ended
    may_claim_draw_by_rule := may_claim_by
    is_finished := is_finished
    may_claim_draw := ! is_finished && may_claim_by.isSome }

/-- `GameResult.outcome`: `self.is_finished and self.ended_by_rule.outcome or
None`.  With `Outcome.DRAW = 0` falsy, a finished draw yields `None`. -/
def game_result_outcome (r : GameResult) : Option RuleOutcome :=
  if r.is_finished then
    match r.ended_by_rule with
    | some rule =>
      if rule_outcome rule = .int 0 then none else some (rule_outcome rule)
    | none => none
  else none

/-- Fold a list of acts over a state with `copy_with_act_applied`. -/
def apply_acts (s : GameState) (acts : List Act) : GameState :=
  acts.foldl copy_with_act_applied s

def mk_board (ps : List (Pos × Piece)) : BoardState :=
  ps.foldl (fun b pp => board_copy_with_piece_at b pp.1 (some pp.2)) empty_board

/-- King+rook versus king: white king g6, white rook a4, black king h8. -/
def krk_board : BoardState :=
  mk_board [(((6 : Int), (5 : Int)), ⟨.K, .W⟩),
            (((0 : Int), (3 : Int)), ⟨.R, .W⟩),
            (((7 : Int), (7 : Int)), ⟨.K, .B⟩)]

/-- Shuffle the white rook between a4 and b4. -/
def krk_shuffle_act (j : Nat) : Act :=
  if j % 2 = 0 then
    .move (.reg ((0 : Int), (3 : Int)) ((1 : Int), (3 : Int)) ⟨.R, .W⟩ none none) false
  else
    .move (.reg ((1 : Int), (3 : Int)) ((0 : Int), (3 : Int)) ⟨.R, .W⟩ none none) false

/-- Rook a4–a8: back-rank mate against the king on h8 (white king on g6
covers g7 and h7, the rook covers the whole 8th rank). -/
def krk_mate_act : Act :=
  .move (.reg ((0 : Int), (3 : Int)) ((0 : Int), (7 : Int)) ⟨.R, .W⟩ none none) false

/-- 100 quiet rook shuffles followed by a quiet checkmate: 101 consecutive
trailing half-moves without a pawn move or capture, ending in mate. -/
def s_mate_after_100 : GameState :=
  apply_acts (.root krk_board) (((List.range 100).map krk_shuffle_act) ++ [krk_mate_act])

/-- 150 quiet rook shuffles followed by a quiet checkmate: 151 consecutive
trailing half-moves without a pawn move or capture, ending in mate. -/
def s_mate_after_150 : GameState :=
  apply_acts (.root krk_board) (((List.range 150).map krk_shuffle_act) ++ [krk_mate_act])

/-- King squares for the non-repeating tour: a6–h6, then a5 onward. -/
def odo_king_sq (k : Nat) : Pos :=
  if k < 8 then ((k : Int), 5) else (((k - 8 : Nat) : Int), 4)

/-- Rook squares for the non-repeating tour: cycling a4–h4. -/
def odo_rook_sq (n : Nat) : Pos :=
  (((n % 8 : Nat) : Int), 3)

def odo_board : BoardState :=
  mk_board [((odo_king_sq 0), ⟨.K, .W⟩),
            ((odo_rook_sq 0), ⟨.R, .W⟩),
            (((7 : Int), (7 : Int)), ⟨.K, .B⟩)]

/-- Odometer act `j`: every ninth act advances the white king to a fresh
square, the others cycle the white rook, so no board ever occurs three times
and every act is a quiet (non-pawn, non-capturing) move. -/
def odo_act (j : Nat) : Act :=
  if j % 9 = 8 then
    .move (.reg (odo_king_sq (j / 9)) (odo_king_sq (j / 9 + 1)) ⟨.K, .W⟩ none none) false
  else
    .move (.reg (odo_rook_sq (j - j / 9)) (odo_rook_sq (j - j / 9 + 1)) ⟨.R, .W⟩ none none) false

/-- 100 quiet half-moves with no board position repeated three times: the
fifty-move rule is applicable, nothing ends the game, and threefold
repetition does not apply. -/
def s_odo_100 : GameState :=
  apply_acts (.root odo_board) ((List.range 100).map odo_act)

/-- `Arbiter`'s mutable fields relevant to act selection: the current game
state and the `_game_stopped` event. -/
structure ArbiterState where
  game_state : GameState
  game_stopped : Bool

/-- The observable effects of one `Arbiter.select_act` call: the arbiter
afterwards, how many times the watchers were notified, and which teams'
players received `on_turn_to_act` (in call order). -/
structure SelectActOutcome where
  final : ArbiterState
  watcher_notifications : Nat
  turn_prompts : List Team

/-- `Arbiter.select_act`.  A `MoveAct` is legal iff its move is in the legal
move list, a `ClaimDrawAct` iff the current result reports `may_claim_draw`,
anything else always.  A legal act advances the state and notifies watchers;
then, unless a legal act finished the game, the (possibly new) playing team
is prompted. -/
def select_act (a : ArbiterState) (act : Act) : SelectActOutcome :=
  if a.game_stopped then
    { final := a, watcher_notifications := 0, turn_prompts := [] }
  else
    let is_legal_act := match act with
      | .move m _ => (compute_legal_moves_for_playing_team a.game_state).contains m
      | .claimDraw => (compute_result a.game_state).may_claim_draw
      | .surrender => true
    let a1 := if is_legal_act then
        { a with game_state := copy_with_act_applied a.game_state act }
      else a
    { final := a1
      watcher_notifications := if is_legal_act then 1 else 0
      turn_prompts :=
        if ! is_legal_act || ! (compute_result a1.game_state).is_finished then
          [a1.game_state.playing_team]
        else [] }

/-- `PIECE_VALUES` of `ai.py`. -/
def PIECE_VALUES : PieceKind → Int
  | .P => 1
  | .R => 5
  | .N => 3
  | .B => 3
  | .Q => 9
  | .K => 0

/-- `MoveScorer.__init__`. -/
structure MoveScorer where
  game_state : GameState
  ai_team : Team
  enemy_team : Team
  current_attacked_squares : List Pos
  current_king_attacked_squares : List Pos
  current_protected_squares : List Pos

def mk_move_scorer (s : GameState) : MoveScorer :=
  let ai_team := s.playing_team
  let enemy_team := get_opponent_of ai_team
  { game_state := s
    ai_team := ai_team
    enemy_team := enemy_team
    current_attacked_squares :=
      get_squares_attacked_by_team s enemy_team (some [.P, .R, .N, .B, .Q])
    current_king_attacked_squares :=
      get_squares_attacked_by_team s enemy_team (some [.K])
    current_protected_squares := get_squares_attacked_by_team s ai_team }

/-- `MoveScorer.score_move`.  Returns `none` for an illegal move and also for
any non-finishing move by a piece that is neither a pawn nor a queen (the
Python function falls through without a `return`). -/
def score_move (sc : MoveScorer) (move : Move) : Option Int :=
  let act : Act := .move move false
  let game_state_after := copy_with_act_applied sc.game_state act
  if is_king_checked game_state_after sc.ai_team then none
  else
    let result := compute_result game_state_after
    if result.is_finished then
      some (if game_result_outcome result = some (.int Outcome.DRAW) then -1000 else 1000)
    else if move.moved_piece.kind = .P then
      if move.is_promotion then
        some (100 +
          (match move.captured_piece with
           | some c => PIECE_VALUES c.kind
           | none => 0) +
          (match move.promoted_piece_value with
           | some pr => PIECE_VALUES pr.kind
           | none => 0))
      else
        match move.captured_piece with
        | some c => some (10 + PIECE_VALUES c.kind)
        | none => some (1 + ((move.to_pos.2 - move.from_pos.2).natAbs : Int))
    else if move.moved_piece.kind = .Q then
      let under_attack_by_enemy_pieces :=
        get_squares_attacked_by_team game_state_after sc.enemy_team
          (some [.P, .R, .N, .B, .Q])
      let under_attack_by_enemy_king :=
        get_squares_attacked_by_team game_state_after sc.enemy_team (some [.K])
      let protected_by_ai_team :=
        get_squares_attacked_by_team game_state_after sc.ai_team
      if under_attack_by_enemy_pieces.contains move.to_pos then some (-100)
      else if under_attack_by_enemy_king.contains move.to_pos &&
          ! protected_by_ai_team.contains move.to_pos then some (-100)
      else
        let is_under_attack :=
          sc.current_attacked_squares.contains move.from_pos ||
          (sc.current_king_attacked_squares.contains move.from_pos &&
           ! sc.current_protected_squares.contains move.from_pos)
        let base_score : Int := if is_under_attack then 100 else 0
        match move.captured_piece with
        | some c => some (base_score + PIECE_VALUES c.kind)
        | none => some base_score
    else none

/-- Knights-and-kings board for the draw-claim scenarios: white king a1,
white knight b1, black knight g8, black king h8.  Not insufficient material
(knight on each side). -/
def knights_board : BoardState :=
  mk_board [(((0 : Int), (0 : Int)), ⟨.K, .W⟩),
            (((1 : Int), (0 : Int)), ⟨.N, .W⟩),
            (((6 : Int), (7 : Int)), ⟨.N, .B⟩),
            (((7 : Int), (7 : Int)), ⟨.K, .B⟩)]

def knight_out_move : Move :=
  .reg ((1 : Int), (0 : Int)) ((0 : Int), (2 : Int)) ⟨.N, .W⟩ none none

def knight_back_move : Move :=
  .reg ((0 : Int), (2 : Int)) ((1 : Int), (0 : Int)) ⟨.N, .W⟩ none none

/-- Five quiet knight shuttle moves: the root position (knight on b1, White
to move) occurs three times, so threefold repetition is claimable but nothing
forces an end. -/
def threefold_claimable_state : GameState :=
  apply_acts (.root knights_board)
    [.move knight_out_move false, .move knight_back_move false,
     .move knight_out_move false, .move knight_back_move false,
     .move knight_out_move false]

/-- The same five shuttle moves with the final move carrying the offer-draw
flag. -/
def threefold_offer_state : GameState :=
  apply_acts (.root knights_board)
    [.move knight_out_move false, .move knight_back_move false,
     .move knight_out_move false, .move knight_back_move false,
     .move knight_out_move true]

/-- The claimable state followed by a `ClaimDrawAct`. -/
def after_claim_draw_state : GameState :=
  copy_with_act_applied threefold_claimable_state .claimDraw

/-- Board for the scorer scenario: white king e5, black rook f6, black king
a8.  Capturing the rook with the king leaves king versus king. -/
def scorer_board : BoardState :=
  mk_board [(((4 : Int), (4 : Int)), ⟨.K, .W⟩),
            (((5 : Int), (5 : Int)), ⟨.R, .B⟩),
            (((0 : Int), (7 : Int)), ⟨.K, .B⟩)]

def scorer_root : GameState := .root scorer_board

/-- White king e5 takes the rook on f6: the resulting position is a draw by
insufficient material. -/
def king_takes_rook_move : Move :=
  .reg ((4 : Int), (4 : Int)) ((5 : Int), (5 : Int)) ⟨.K, .W⟩
    (some ((5 : Int), (5 : Int))) (some ⟨.R, .B⟩)

/-- A move that is not legal in the initial position: rook a1 to a5. -/
def illegal_rook_move : Move :=
  .reg ((0 : Int), (0 : Int)) ((0 : Int), (4 : Int)) ⟨.R, .W⟩ none none

/-- A two-act chain whose first half-move is quiet and whose second is a
capture: the total no-progress count is 1, the trailing count is 0. -/
def capture_tail_state : GameState :=
  apply_acts (.root scorer_board)
    [.move (.reg ((4 : Int), (4 : Int)) ((4 : Int), (5 : Int)) ⟨.K, .W⟩ none none) false,
     .move (.reg ((4 : Int), (5 : Int)) ((5 : Int), (5 : Int)) ⟨.K, .W⟩
       (some ((5 : Int), (5 : Int))) (some ⟨.R, .B⟩)) false]

/-- Chain with a non-move act in the middle: knight out, draw claimed, knight
back. -/
def historical_moves_probe_state : GameState :=
  apply_acts (.root knights_board)
    [.move knight_out_move false, .claimDraw, .move knight_back_move false]

/-- Modelled from the claim wording of C1: the number of consecutive trailing
half-moves none of which is a pawn move or a capture, i.e. a no-progress count
that resets whenever a pawn moves or a piece is captured (and stops at a
non-move act). -/
def trailing_quiet_half_moves : GameState → Nat
  | .step _ p (.move m _) =>
    if is_pawn_move_or_piece_capture m then 0 else 1 + trailing_quiet_half_moves p
  | _ => 0

/-- The result reports a draw claimable by the fifty-move rule. -/
def reports_claimable_by_fifty (s : GameState) : Prop :=
  (compute_result s).may_claim_draw = true ∧
  (compute_result s).may_claim_draw_by_rule = some .drawClaimableByFiftyMoveRule

/-- The result reports the game finished by the seventy-five-move rule. -/
def reports_finished_by_seventy_five (s : GameState) : Prop :=
  (compute_result s).is_finished = true ∧
  (compute_result s).ended_by_rule = some .drawBySeventyFiveMoveRule

/-- Claim C1 as stated: 100 consecutive trailing quiet half-moves make the
draw claimable by the fifty-move rule, 150 force the draw by the
seventy-five-move rule, and the count the rules use is the resetting
(trailing) count. -/
def claim_c1_statement (s : GameState) : Prop :=
  (100 ≤ trailing_quiet_half_moves s → reports_claimable_by_fifty s) ∧
  (150 ≤ trailing_quiet_half_moves s → reports_finished_by_seventy_five s) ∧
  n_moves_without_capture_or_pawn_move s = trailing_quiet_half_moves s

def Act.is_move_act : Act → Bool
  | .move _ _ => true
  | _ => false

def act_move_part : Act → Option Move
  | .move m _ => some m
  | _ => none

/-- All acts along the previous-state chain, most recent first. -/
def acts_of_chain : GameState → List Act
  | .root _ => []
  | .step _ p a => a :: acts_of_chain p

/-- The moves of all `MoveAct`s in the entire history, most recent first:
what claim C8 says `historical_moves` returns. -/
def chain_all_moves (s : GameState) : List Move :=
  (acts_of_chain s).filterMap act_move_part

/-- Claim C8 as stated: `historical_moves` collects the moves of the entire
chain even across non-move acts. -/
def claim_c8_statement (s : GameState) : Prop :=
  s.historical_moves = chain_all_moves s

/-- Pawn double-step e2–e4, a legal first move. -/
def pawn_e2e4_move : Move :=
  .reg ((4 : Int), (1 : Int)) ((4 : Int), (3 : Int)) ⟨.P, .W⟩ none none

def fresh_arbiter : ArbiterState :=
  { game_state := initial_game_state, game_stopped := false }

def scorer_after_state : GameState :=
  copy_with_act_applied scorer_root (.move king_takes_rook_move false)

/-- White pawn on b2 with a black knight on a3: the pawn has a capture to a3
in its possible moves. -/
def pawn_file1_board : BoardState :=
  mk_board [(((1 : Int), (1 : Int)), ⟨.P, .W⟩),
            (((0 : Int), (2 : Int)), ⟨.N, .B⟩)]

def pawn_file1_state : GameState := .root pawn_file1_board

def pawn_file1_capture_move : Move :=
  .reg ((1 : Int), (1 : Int)) ((0 : Int), (2 : Int)) ⟨.P, .W⟩
    (some ((0 : Int), (2 : Int))) (some ⟨.N, .B⟩)

theorem compute_result_ended_by_rule (s : GameState) :
    (compute_result s).ended_by_rule =
      game_end_rules.find? (fun r => rule_applicable r s && rule_outcome_ne_may_claim r) := rfl

theorem compute_result_may_claim_by (s : GameState) :
    (compute_result s).may_claim_draw_by_rule =
      game_end_rules.find? (fun r => rule_applicable r s && rule_outcome_is_may_claim r) := rfl

theorem compute_result_is_finished_eq (s : GameState) :
    (compute_result s).is_finished = ((compute_result s).ended_by_rule).isSome := rfl

theorem compute_result_may_claim_eq (s : GameState) :
    (compute_result s).may_claim_draw =
      (! (compute_result s).is_finished && ((compute_result s).may_claim_draw_by_rule).isSome) := rfl

theorem repetition_rule_mono (s : GameState)
    (h : repetition_rule_applicable 5 s = true) :
    repetition_rule_applicable 3 s = true := by
  unfold repetition_rule_applicable at h ⊢
  rw [List.any_eq_true] at h ⊢
  obtain ⟨kn, hmem, hk⟩ := h
  refine ⟨kn, hmem, ?_⟩
  rw [decide_eq_true_eq] at hk ⊢
  omega

/-- C4: `Pawn.get_attacked_positions` for a white pawn on b2 yields only the
right diagonal c3 — the square a3 is missing because the source tests
`piece_x - 1 > 0` instead of `>= 0` — even though the pawn's possible moves do
include the capture to a3, contradicting the docstring of
`get_attacked_positions` (a king on a3 would not be seen as checked). -/
theorem c4_pawn_attack_code_result :
    get_attacked_positions ⟨.P, .W⟩ pawn_file1_state ((1 : Int), (1 : Int)) =
      [((2 : Int), (2 : Int))] ∧
    pawn_file1_capture_move ∈
      get_possible_moves ⟨.P, .W⟩ pawn_file1_state ((1 : Int), (1 : Int)) := by
  exact ⟨by decide, by decide⟩

/-- C6: the initial position has exactly 20 legal moves, with White to move. -/
theorem c6_initial_position_20_moves :
    (compute_legal_moves_for_playing_team initial_game_state).length = 20 ∧
    initial_game_state.playing_team = .W := by
  exact ⟨by decide, rfl⟩

/-- C5: every move produced by `compute_legal_moves_for_playing_team` leaves
the mover's own king out of check after it is applied. -/
theorem c5_legal_moves_never_leave_king_checked (s : GameState) (m : Move)
    (h : m ∈ compute_legal_moves_for_playing_team s) :
    is_king_checked (copy_with_act_applied s (.move m false)) s.playing_team = false := by
  unfold compute_legal_moves_for_playing_team at h
  rw [List.mem_bind] at h
  obtain ⟨pp, hpp, hm⟩ := h
  by_cases hteam : pp.2.team = s.playing_team
  · rw [if_pos hteam, List.mem_filter] at hm
    simpa using hm.2
  · rw [if_neg hteam] at hm
    exact absurd hm (List.not_mem_nil m)

theorem c5_witness :
    pawn_e2e4_move ∈ compute_legal_moves_for_playing_team initial_game_state ∧
    is_king_checked (copy_with_act_applied initial_game_state (.move pawn_e2e4_move false))
      initial_game_state.playing_team = false := by
  exact ⟨by decide,
    c5_legal_moves_never_leave_king_checked initial_game_state pawn_e2e4_move (by decide)⟩

/-- C8 counterexample: in a chain move–claimdraw–move, `historical_moves`
returns only the final move, not all moves of the chain. -/
theorem c8_counterexample : ¬ claim_c8_statement historical_moves_probe_state := by
  unfold claim_c8_statement
  decide

/-- C8 (amended): `historical_moves` returns the moves of the longest suffix
of the act history (most recent first) consisting solely of `MoveAct`s; it
stops at the first non-move act. -/
theorem c8_historical_moves_stop_at_non_move (s : GameState) :
    s.historical_moves =
      ((acts_of_chain s).takeWhile Act.is_move_act).filterMap act_move_part := by
  induction s with
  | root b => rfl
  | step b p a ih =>
    cases a with
    | move m o =>
      show m :: p.historical_moves =
        m :: ((acts_of_chain p).takeWhile Act.is_move_act).filterMap act_move_part
      exact congrArg _ ih
    | claimDraw => rfl
    | surrender => rfl

/-- C10: applying a `ClaimDrawAct` or a `SurrenderAct` leaves every one of
the 64 squares unchanged and only extends the history: the new state links
back to the old one, records the act, grows `history_size` by one and flips
`playing_team`. -/
theorem c10_non_move_act_preserves_board (s : GameState) (a : Act)
    (h : a = .claimDraw ∨ a = .surrender) :
    (∀ p : Pos, board_piece_at (copy_with_act_applied s a).board_state p =
        board_piece_at s.board_state p) ∧
    (copy_with_act_applied s a).previous_state = some s ∧
    (copy_with_act_applied s a).last_act = some a ∧
    (copy_with_act_applied s a).history_size = s.history_size + 1 ∧
    (copy_with_act_applied s a).playing_team = get_opponent_of s.playing_team := by
  have hb : (copy_with_act_applied s a).board_state = s.board_state := by
    rcases h with h | h <;> subst h <;> rfl
  have hh : (copy_with_act_applied s a).history_size = 1 + s.history_size := by
    rcases h with h | h <;> subst h <;> rfl
  refine ⟨fun p => by rw [hb], ?_, ?_, ?_, ?_⟩
  · rcases h with h | h <;> subst h <;> rfl
  · rcases h with h | h <;> subst h <;> rfl
  · rw [hh]; omega
  · unfold GameState.playing_team
    rw [hh]
    rcases Nat.mod_two_eq_zero_or_one s.history_size with h2 | h2
    · have hL : (1 + s.history_size) % 2 = 1 := by omega
      rw [hL, h2]
      rfl
    · have hL : (1 + s.history_size) % 2 = 0 := by omega
      rw [hL, h2]
      rfl

theorem c10_witness :
    ((Act.claimDraw = Act.claimDraw ∨ Act.claimDraw = Act.surrender) ∧
     (∀ p : Pos, board_piece_at (copy_with_act_applied (.root knights_board) .claimDraw).board_state p =
        board_piece_at (GameState.root knights_board).board_state p) ∧
     (copy_with_act_applied (.root knights_board) .claimDraw).previous_state =
        some (.root knights_board) ∧
     (copy_with_act_applied (.root knights_board) .claimDraw).last_act = some .claimDraw ∧
     (copy_with_act_applied (.root knights_board) .claimDraw).history_size =
        (GameState.root knights_board).history_size + 1 ∧
     (copy_with_act_applied (.root knights_board) .claimDraw).playing_team =
        get_opponent_of (GameState.root knights_board).playing_team) := by
  refine ⟨Or.inl rfl, ?_⟩
  exact c10_non_move_act_preserves_board (.root knights_board) .claimDraw (Or.inl rfl)

/-- C2: after five quiet knight-shuttle half-moves a draw is claimable by
threefold repetition, but applying a `ClaimDrawAct` does NOT finish the game:
`GameResult.__init__` tests `game_state.last_act is ClaimDrawAct` against the
class object, which is always false for the act instance, so the claim branch
never runs (and would raise `AttributeError` if it did, since `GameState` has
no `may_claim_draw_by_rule` attribute). -/
theorem c2_claim_draw_act_ignored :
    after_claim_draw_state.previous_state = some threefold_claimable_state ∧
    after_claim_draw_state.last_act = some .claimDraw ∧
    (compute_result threefold_claimable_state).may_claim_draw = true ∧
    (compute_result threefold_claimable_state).may_claim_draw_by_rule =
      some .drawClaimableByThreefoldRepetition ∧
    (compute_result after_claim_draw_state).is_finished = false ∧
    (compute_result after_claim_draw_state).ended_by_rule = none := by
  refine ⟨rfl, rfl, by decide, by decide, by decide, by decide⟩

/-- C3: a draw is claimable by threefold repetition and the last act is a
`MoveAct` with the offer-draw flag set, yet the game is NOT auto-finished:
the auto-accept block of `GameResult.__init__` tests
`game_state.last_act is MoveAct` against the class object, always false, so
it never fires; `may_claim_draw` stays true and `is_finished` stays false. -/
theorem c3_offer_draw_not_auto_accepted :
    threefold_offer_state.last_act = some (.move knight_out_move true) ∧
    (compute_result threefold_offer_state).may_claim_draw_by_rule =
      some .drawClaimableByThreefoldRepetition ∧
    (compute_result threefold_offer_state).ended_by_rule = none ∧
    (compute_result threefold_offer_state).is_finished = false ∧
    (compute_result threefold_offer_state).may_claim_draw = true := by
  refine ⟨rfl, by decide, by decide, by decide, by decide⟩

/-- C9: capturing the lone black rook with the white king is a legal move
into a finished position (draw by insufficient material, a rule with outcome
`Outcome.DRAW = 0`), yet `score_move` returns +1000 instead of −1000:
`GameResult.outcome` computes `is_finished and ended_by_rule.outcome or None`
and the falsy draw outcome `0` collapses to `None`, which is `!= DRAW`. -/
theorem c9_draw_scored_plus_1000 :
    is_king_checked scorer_after_state .W = false ∧
    (compute_result scorer_after_state).is_finished = true ∧
    (compute_result scorer_after_state).ended_by_rule = some .drawByInsufficientMaterial ∧
    rule_outcome .drawByInsufficientMaterial = .int Outcome.DRAW ∧
    game_result_outcome (compute_result scorer_after_state) = none ∧
    score_move (mk_move_scorer scorer_root) king_takes_rook_move = some 1000 := by
  refine ⟨by decide, by decide, by decide, rfl, by decide, by decide⟩

/-- C7: submitting a `MoveAct` whose move is not in the legal move list to an
unstopped arbiter leaves the game state unchanged, notifies no watcher, and
prompts exactly the player already on turn once. -/
theorem c7_illegal_move_rejected (a : ArbiterState) (m : Move) (off : Bool)
    (hstop : a.game_stopped = false)
    (_hfin : (compute_result a.game_state).is_finished = false)
    (hillegal : (compute_legal_moves_for_playing_team a.game_state).contains m = false) :
    select_act a (.move m off) =
      { final := a, watcher_notifications := 0,
        turn_prompts := [a.game_state.playing_team] } := by
  unfold select_act
  simp only [hstop, hillegal]
  rfl

theorem c7_witness :
    fresh_arbiter.game_stopped = false ∧
    (compute_result fresh_arbiter.game_state).is_finished = false ∧
    (compute_legal_moves_for_playing_team fresh_arbiter.game_state).contains
      illegal_rook_move = false ∧
    select_act fresh_arbiter (.move illegal_rook_move false) =
      { final := fresh_arbiter, watcher_notifications := 0,
        turn_prompts := [fresh_arbiter.game_state.playing_team] } := by
  refine ⟨rfl, by decide, by decide, ?_⟩
  exact c7_illegal_move_rejected fresh_arbiter illegal_rook_move false rfl
    (by decide) (by decide)

/-- C1 counterexample: (a) after 101 consecutive quiet half-moves ending in
checkmate the result is a win, not a claimable fifty-move draw; (b) after a
quiet half-move followed by a capture the count used by the rules is 1, not
the trailing count 0 — it never resets. -/
theorem c1_counterexample :
    ¬ claim_c1_statement s_mate_after_100 ∧ ¬ claim_c1_statement capture_tail_state := by
  constructor
  · intro h
    have hrep : reports_claimable_by_fifty s_mate_after_100 := h.1 (by decide)
    unfold reports_claimable_by_fifty at hrep
    exact absurd hrep.1 (by decide)
  · intro h
    exact absurd h.2.2 (by decide)

/-- C1 (amended): the no-progress rules count all half-moves of the entire
history that are neither pawn moves nor captures, without ever resetting;
the fifty-move rule is applicable exactly when that total reaches 100 and
the seventy-five-move rule exactly when it reaches 150; a total of 150 always
finishes the game (though an earlier forcing rule may be the one reported);
and when no forcing rule applies and threefold repetition is not applicable,
a total of 100 makes `compute_result` report a draw claimable by the
fifty-move rule. -/
theorem c1_no_progress_rules_amended (s : GameState) :
    (rule_applicable .drawClaimableByFiftyMoveRule s = true ↔
      100 ≤ n_moves_without_capture_or_pawn_move s) ∧
    (rule_applicable .drawBySeventyFiveMoveRule s = true ↔
      150 ≤ n_moves_without_capture_or_pawn_move s) ∧
    (150 ≤ n_moves_without_capture_or_pawn_move s →
      (compute_result s).is_finished = true) ∧
    (rule_applicable (.victoryByCheckmate .W) s = false →
     rule_applicable (.victoryByCheckmate .B) s = false →
     rule_applicable .drawByStalemate s = false →
     rule_applicable .drawClaimableByThreefoldRepetition s = false →
     rule_applicable .drawBySeventyFiveMoveRule s = false →
     rule_applicable .drawByInsufficientMaterial s = false →
     100 ≤ n_moves_without_capture_or_pawn_move s →
     (compute_result s).ended_by_rule = none ∧
     (compute_result s).may_claim_draw = true ∧
     (compute_result s).may_claim_draw_by_rule = some .drawClaimableByFiftyMoveRule) := by
  refine ⟨?_, ?_, ?_, ?_⟩
  · show decide (n_moves_without_capture_or_pawn_move s ≥ 50 * 2) = true ↔ _
    simp only [decide_eq_true_eq]
  · show decide (n_moves_without_capture_or_pawn_move s ≥ 75 * 2) = true ↔ _
    simp only [decide_eq_true_eq]
  · intro h150
    rw [compute_result_is_finished_eq, compute_result_ended_by_rule]
    cases hfind : game_end_rules.find?
        (fun r => rule_applicable r s && rule_outcome_ne_may_claim r) with
    | some r => rfl
    | none =>
      exfalso
      have hall := List.find?_eq_none.mp hfind .drawBySeventyFiveMoveRule (by decide)
      apply hall
      show (rule_applicable .drawBySeventyFiveMoveRule s &&
        rule_outcome_ne_may_claim .drawBySeventyFiveMoveRule) = true
      rw [show rule_applicable .drawBySeventyFiveMoveRule s = true from
        decide_eq_true (show n_moves_without_capture_or_pawn_move s ≥ 75 * 2 by omega)]
      rfl
  · intro h1 h2 h3 h3f h75 hins h100
    have h3f' : repetition_rule_applicable 3 s = false := h3f
    have hfive : rule_applicable .drawByFivefoldRepetition s = false := by
      cases hf : repetition_rule_applicable 5 s with
      | false => exact hf
      | true =>
        rw [repetition_rule_mono s hf] at h3f'
        exact Bool.noConfusion h3f'
    have hsurW : rule_applicable (.victoryByOpponentSurrender .W) s = false := rfl
    have hsurB : rule_applicable (.victoryByOpponentSurrender .B) s = false := rfl
    have hoffer : rule_applicable .drawClaimableByOffer s = false := rfl
    have hfifty : rule_applicable .drawClaimableByFiftyMoveRule s = true :=
      decide_eq_true (show n_moves_without_capture_or_pawn_move s ≥ 50 * 2 by omega)
    have hended : (compute_result s).ended_by_rule = none := by
      rw [compute_result_ended_by_rule]
      simp [game_end_rules, List.find?, h1, h2, h3, h3f, h75, hins, hfive, hfifty,
        hsurW, hsurB, hoffer, rule_outcome_ne_may_claim, rule_outcome, Outcome.MAY_CLAIM_DRAW]
    have hmay : (compute_result s).may_claim_draw_by_rule =
        some .drawClaimableByFiftyMoveRule := by
      rw [compute_result_may_claim_by]
      simp [game_end_rules, List.find?, h1, h2, h3, h3f, h75, hins, hfive, hfifty,
        hsurW, hsurB, hoffer, rule_outcome_is_may_claim, rule_outcome, Outcome.MAY_CLAIM_DRAW]
    refine ⟨hended, ?_, hmay⟩
    rw [compute_result_may_claim_eq, compute_result_is_finished_eq, hended, hmay]
    rfl

theorem c1_no_progress_rules_amended_witness :
    (100 ≤ n_moves_without_capture_or_pawn_move s_odo_100 ∧
     (compute_result s_odo_100).ended_by_rule = none ∧
     (compute_result s_odo_100).may_claim_draw = true ∧
     (compute_result s_odo_100).may_claim_draw_by_rule =
       some .drawClaimableByFiftyMoveRule) ∧
    (150 ≤ n_moves_without_capture_or_pawn_move s_mate_after_150 ∧
     (compute_result s_mate_after_150).is_finished = true) := by
  have h := (c1_no_progress_rules_amended s_odo_100).2.2.2
    (by decide) (by decide) (by decide) (by decide) (by decide) (by decide) (by decide)
  exact ⟨⟨by decide, h.1, h.2.1, h.2.2⟩,
    by decide, (c1_no_progress_rules_amended s_mate_after_150).2.2.1 (by decide)⟩
